import Mathlib

/-!
# PSU status cache of the accton as6712_32x hwmon driver

A shallow embedding of `x86-64-accton-as6712-32x-psu.c`: the cached, time-gated refresh
`as6712_32x_psu_update_device`, the retrying block read `as6712_32x_psu_read_block`, and the
two sysfs readers `show_status` and `show_model_name`.

Modelling conventions

* `unsigned long` is 64 bits wide (the driver is built for x86-64); `jiffies` arithmetic is done
  modulo `2 ^ 64` and `time_after` is the kernel's `(long)(b - a) < 0`.
* `HZ` is a kernel configuration constant; it is a parameter of the model.
* The collaborators `as6712_32x_i2c_cpld_read` and `i2c_smbus_read_i2c_block_data` are outside
  the file; their outcomes are parameters (`Env`).  Every call to them, and every `msleep`, is
  recorded in a trace of `Event`s.
* `model_name` is the memory that starts at `data->model_name[0]`, as a list of bytes that is 14
  long in a well-formed record.  A store that runs past the end makes the list longer
  (`length_store`), so "every write stays inside the buffer" is "the length is still 14".
* The mutex is not modelled: one call runs at a time.
-/

namespace As6712Psu

/-! ## Machine arithmetic -/

/-- Number of values of an `unsigned long` on x86-64. -/
def ULONG_SPAN : Nat := 2 ^ 64

/-- Sum of two `unsigned long` values. -/
def ul_add (a b : Nat) : Nat := (a + b) % ULONG_SPAN

/-- Difference `a - b` of two `unsigned long` values. -/
def ul_sub (a b : Nat) : Nat := (a % ULONG_SPAN + ULONG_SPAN - b % ULONG_SPAN) % ULONG_SPAN

/-- Conversion `(long)x` of an `unsigned long`. -/
def to_long (x : Nat) : Int :=
  if x % ULONG_SPAN < 2 ^ 63 then ((x % ULONG_SPAN : Nat) : Int)
  else ((x % ULONG_SPAN : Nat) : Int) - (ULONG_SPAN : Int)

/-- Kernel macro `time_after(a, b)`: `((long)((b) - (a)) < 0)`. -/
def time_after (a b : Nat) : Bool := decide (to_long (ul_sub b a) < 0)

/-- Operator `x >> n` on a non-negative `int` value `x`.  C defines it for `0 ≤ n < 32`; outside
that range the model takes what the x86 shift instruction does, the count modulo 32. -/
def c_shr (x : Nat) (n : Int) : Nat := x >>> (n % 32).toNat

/-- Operator `!x`. -/
def c_not (x : Nat) : Nat := if x = 0 then 1 else 0

/-- Conversion of a non-negative `int` to `u8`. -/
def to_u8 (x : Nat) : Nat := x % 256

/-- Errno `EIO`. -/
def EIO : Int := 5

/-! ## Memory of the model-name buffer -/

/-- Store `bytes` at offset `off` of the memory `buf`. -/
def store (buf : List Nat) (off : Nat) (bytes : List Nat) : List Nat :=
  buf.take off ++ bytes ++ buf.drop (off + bytes.length)

/-- Library call `memset(buf, c, n)`. -/
def memset (buf : List Nat) (c n : Nat) : List Nat := store buf 0 (List.replicate n c)

/-- The C string that starts at `buf[0]`: the bytes before the first NUL. -/
def c_str (buf : List Nat) : List Nat := buf.takeWhile (fun b => b != 0)

/-- Decimal digits of `n` in ASCII, as `sprintf` prints a non-negative `%d`. -/
def fmt_d (n : Nat) : List Nat := (Nat.toDigits 10 n).map Char.toNat

/-! ## Data model -/

/-- Per-client data `struct as6712_32x_psu_data` (without `hwmon_dev` and `update_lock`). -/
structure as6712_32x_psu_data where
  /-- Field `char valid`: nonzero if the registers are valid. -/
  valid : Nat
  /-- Field `unsigned long last_updated`, in jiffies. -/
  last_updated : Nat
  /-- Field `u8 index`: PSU index. -/
  index : Nat
  /-- Field `u8 status`: present / power-good register read from the CPLD. -/
  status : Nat
  /-- Field `char model_name[14]`. -/
  model_name : List Nat
  deriving DecidableEq, Repr

/-- Attribute indices `enum as6712_32x_psu_sysfs_attributes`. -/
inductive as6712_32x_psu_sysfs_attributes where
  | PSU_PRESENT
  | PSU_MODEL_NAME
  | PSU_POWER_GOOD
  deriving DecidableEq, Repr

/-- Outcome of one `i2c_smbus_read_i2c_block_data` transaction. -/
structure Xfer where
  /-- Return value: the byte count, or a negative errno. -/
  result : Int
  /-- Bytes the transaction stored at the start of the caller's buffer. -/
  bytes : List Nat
  deriving DecidableEq, Repr

/-- What the driver does to the outside world. -/
inductive Event where
  /-- Call `as6712_32x_i2c_cpld_read(cpld_addr, reg)`. -/
  | cpld_read (cpld_addr reg : Nat)
  /-- Call `i2c_smbus_read_i2c_block_data(client, command, length, data)`. -/
  | block_read (command length : Nat)
  /-- Call `msleep(ms)`. -/
  | msleep (ms : Nat)
  deriving DecidableEq, Repr

/-- The outside world during one call of `as6712_32x_psu_update_device`. -/
structure Env where
  /-- Value of `jiffies` read by the `time_after` test. -/
  jiffies_test : Nat
  /-- Value of `jiffies` read by the assignment to `last_updated`. -/
  jiffies_stamp : Nat
  /-- Return value of `as6712_32x_i2c_cpld_read(cpld_addr, reg)`. -/
  cpld_read : Nat → Nat → Int
  /-- Outcome of the `k`-th block-read transaction (counted from 0). -/
  xfer : Nat → Xfer

/-! ## Retrying block read -/

/-- Result of `as6712_32x_psu_read_block`. -/
structure BlockOut where
  /-- Return value. -/
  result : Int
  /-- Memory at `data` afterwards. -/
  data : List Nat
  /-- Calls made, in order. -/
  trace : List Event
  deriving DecidableEq, Repr

/-- The `while (retry_count)` loop of `as6712_32x_psu_read_block`: `retry_count` iterations are
left, `k` transactions have been made, `result` and `data` are the current values. -/
def read_block_loop (xfer : Nat → Xfer) (command : Nat) (data_len : Int) :
    (retry_count : Nat) → (k : Nat) → (result : Int) → (data : List Nat) → List Event → BlockOut
  | 0, _, result, data, tr => ⟨result, data, tr⟩
  | retry_count + 1, k, _, data, tr =>
    let x := xfer k
    let result := x.result
    let data := store data 0 x.bytes
    let tr := tr ++ [Event.block_read command (data_len % 256).toNat]
    if result < 0 then
      read_block_loop xfer command data_len retry_count (k + 1) result data (tr ++ [Event.msleep 10])
    else if result ≠ data_len then
      read_block_loop xfer command data_len retry_count (k + 1) (- EIO) data (tr ++ [Event.msleep 10])
    else
      ⟨0, data, tr⟩

/-- Function `as6712_32x_psu_read_block(client, command, data, data_len)`. -/
def as6712_32x_psu_read_block (xfer : Nat → Xfer) (command : Nat) (data : List Nat)
    (data_len : Int) : BlockOut :=
  read_block_loop xfer command data_len 5 0 0 data []

/-! ## Cached refresh -/

/-- Result of `as6712_32x_psu_update_device`. -/
structure UpdateOut where
  /-- The record afterwards (the function returns a pointer to it). -/
  data : as6712_32x_psu_data
  /-- Calls made, in order. -/
  trace : List Event
  deriving DecidableEq, Repr

/-- Expression `!(data->status >> ((data->index-1)*4) & 0x1)` of the driver. -/
def psu_present (data : as6712_32x_psu_data) : Nat :=
  c_not (c_shr data.status (((data.index : Int) - 1) * 4) &&& 0x1)

/-- Test `time_after(jiffies, data->last_updated + HZ + HZ / 2) || !data->valid`. -/
def needs_refresh (HZ : Nat) (jiffies : Nat) (data : as6712_32x_psu_data) : Bool :=
  time_after jiffies (ul_add (ul_add data.last_updated HZ) (HZ / 2)) || data.valid == 0

/-- Function `as6712_32x_psu_update_device(dev)`; `addr` is `client->addr`. -/
def as6712_32x_psu_update_device (HZ addr : Nat) (env : Env) (data : as6712_32x_psu_data) :
    UpdateOut :=
  if needs_refresh HZ env.jiffies_test data then
    let status := env.cpld_read 0x60 0x2
    let data := if status < 0 then data else { data with status := to_u8 status.toNat }
    let data := { data with model_name := memset data.model_name 0 14 }
    let present := psu_present data
    let r : UpdateOut :=
      if present ≠ 0 then
        let command : Nat := if addr = 0x38 ∨ addr = 0x3b then 0x26 else 0x50
        let model_name_len : Nat := 13
        let b := as6712_32x_psu_read_block env.xfer command data.model_name model_name_len
        if b.result < 0 then
          ⟨{ data with model_name := store b.data 0 [0] }, b.trace⟩
        else
          ⟨{ data with model_name := store b.data model_name_len [0] }, b.trace⟩
      else ⟨data, []⟩
    ⟨{ r.data with last_updated := env.jiffies_stamp, valid := 1 },
      Event.cpld_read 0x60 0x2 :: r.trace⟩
  else ⟨data, []⟩

/-! ## sysfs readers -/

/-- Result of a sysfs `show` callback. -/
structure ShowOut where
  /-- The record afterwards. -/
  data : as6712_32x_psu_data
  /-- Calls made, in order. -/
  trace : List Event
  /-- Text placed in `buf`. -/
  buf : List Nat
  /-- Return value: the number of characters printed. -/
  ret : Nat
  deriving DecidableEq, Repr

/-- The local `u8 status` that `show_status` prints, from the refreshed record. -/
def show_status_value (attr : as6712_32x_psu_sysfs_attributes) (data : as6712_32x_psu_data) : Nat :=
  if attr = .PSU_PRESENT then
    to_u8 (c_not (c_shr data.status (((data.index : Int) - 1) * 4) &&& 0x1))
  else
    to_u8 (c_shr data.status (((data.index : Int) - 1) * 4 + 1) &&& 0x1)

/-- Function `show_status(dev, da, buf)`; `attr` is `attr->index`. -/
def show_status (HZ addr : Nat) (env : Env) (attr : as6712_32x_psu_sysfs_attributes)
    (data : as6712_32x_psu_data) : ShowOut :=
  let u := as6712_32x_psu_update_device HZ addr env data
  let text := fmt_d (show_status_value attr u.data) ++ [10]
  ⟨u.data, u.trace, text, text.length⟩

/-- Function `show_model_name(dev, da, buf)`. -/
def show_model_name (HZ addr : Nat) (env : Env) (data : as6712_32x_psu_data) : ShowOut :=
  let u := as6712_32x_psu_update_device HZ addr env data
  let text := c_str u.data.model_name ++ [10]
  ⟨u.data, u.trace, text, text.length⟩

/-! ## Probe -/

/-- Outcomes of the kernel calls made by `as6712_32x_psu_probe`. -/
structure ProbeEnv where
  /-- Result of `i2c_check_functionality(client->adapter, I2C_FUNC_SMBUS_I2C_BLOCK)`. -/
  functionality : Bool
  /-- Whether `kzalloc` returned memory. -/
  alloc_ok : Bool
  /-- Return value of `sysfs_create_group`. -/
  sysfs_status : Int
  /-- Errno in `hwmon_dev` when `IS_ERR(data->hwmon_dev)`. -/
  hwmon_err : Option Int

/-- Errno `ENOMEM`. -/
def ENOMEM : Int := 12

/-- Memory returned by `kzalloc(sizeof(struct as6712_32x_psu_data), GFP_KERNEL)`. -/
def kzalloc_psu_data : as6712_32x_psu_data :=
  { valid := 0, last_updated := 0, index := 0, status := 0, model_name := List.replicate 14 0 }

/-- Function `as6712_32x_psu_probe(client, dev_id)`: the record it leaves, or its error status. -/
def as6712_32x_psu_probe (pe : ProbeEnv) (addr : Nat) : Except Int as6712_32x_psu_data :=
  if !pe.functionality then .error (- EIO)
  else if !pe.alloc_ok then .error (- ENOMEM)
  else
    let data := { kzalloc_psu_data with valid := 0 }
    if pe.sysfs_status ≠ 0 then .error pe.sysfs_status
    else match pe.hwmon_err with
      | some e => .error e
      | none =>
        if addr = 0x50 ∨ addr = 0x38 then .ok { data with index := 1 }
        else if addr = 0x53 ∨ addr = 0x3b then .ok { data with index := 2 }
        else .ok data

/-- One sysfs read: which attribute file is read, and the outside world during the read. -/
structure Query where
  /-- The attribute read. -/
  attr : as6712_32x_psu_sysfs_attributes
  /-- The outside world during the read. -/
  env : Env

/-- Dispatch of a sysfs read to its `show` callback (table `SENSOR_DEVICE_ATTR`). -/
def sysfs_show (HZ addr : Nat) (q : Query) (data : as6712_32x_psu_data) : ShowOut :=
  if q.attr = .PSU_MODEL_NAME then show_model_name HZ addr q.env data
  else show_status HZ addr q.env q.attr data

/-- The record after a sequence of sysfs reads. -/
def run (HZ addr : Nat) : List Query → as6712_32x_psu_data → as6712_32x_psu_data
  | [], data => data
  | q :: qs, data => run HZ addr qs (sysfs_show HZ addr q data).data

/-! ## Vocabulary of the statements -/

/-- A block-read transaction failed: a transport error (negative result) or a byte count
different from the requested length. -/
def attempt_failed (x : Xfer) (data_len : Int) : Prop := x.result < 0 ∨ x.result ≠ data_len

instance (x : Xfer) (data_len : Int) : Decidable (attempt_failed x data_len) := by
  unfold attempt_failed; infer_instance

/-- Number of block-read transactions in a trace. -/
def block_reads (tr : List Event) : Nat :=
  (tr.filter (fun e => match e with | .block_read _ _ => true | _ => false)).length

/-- One failed attempt: the transaction, then the 10 ms wait. -/
def failed_round (command : Nat) (data_len : Int) : List Event :=
  [Event.block_read command (data_len % 256).toNat, Event.msleep 10]

/-- Value left in `result` by a failed attempt. -/
def failure_code (x : Xfer) : Int := if x.result < 0 then x.result else - EIO

/-- The record after the status step of a refresh in which the CPLD read returned `v`. -/
def with_status (v : Int) (d : as6712_32x_psu_data) : as6712_32x_psu_data :=
  if v < 0 then d else { d with status := to_u8 v.toNat }

/-- The block-read command of the model name for the client at `addr`. -/
def model_command (addr : Nat) : Nat := if addr = 0x38 ∨ addr = 0x3b then 0x26 else 0x50

/-- The buffer invariant: 14 bytes, one of them NUL. -/
def buffer_ok (d : as6712_32x_psu_data) : Prop := d.model_name.length = 14 ∧ 0 ∈ d.model_name

/-! ## Sample inputs -/

/-- A record with a valid cache: PSU 1, status register `status`, stamped at jiffies 0, and a
stale model name "AB". -/
def cached_record (status : Nat) : as6712_32x_psu_data :=
  { valid := 1, last_updated := 0, index := 1, status := status,
    model_name := [65, 66] ++ List.replicate 12 0 }

/-- Errno `ENXIO`, what an I2C adapter returns when the device does not acknowledge. -/
def ENXIO : Int := 6

/-- A bus on which every block read is refused with `-ENXIO`. -/
def nack_xfer : Nat → Xfer := fun _ => ⟨- ENXIO, []⟩

/-- A bus on which the first block read is refused, the second is 5 bytes short and leaves them
in the buffer, and every later one delivers 13 bytes `B`. -/
def third_time_xfer : Nat → Xfer := fun k =>
  if k = 0 then ⟨- ENXIO, []⟩
  else if k = 1 then ⟨5, [1, 2, 3, 4, 5]⟩
  else ⟨13, List.replicate 13 66⟩

/-- A bus on which every block read comes back 5 bytes long and leaves those bytes in the
buffer. -/
def short_xfer : Nat → Xfer := fun _ => ⟨5, [67, 80, 82, 45, 52]⟩

/-- The outside world at jiffies `t`, with the CPLD read returning `v` and block reads
answered by `xfer`. -/
def env_at (t : Nat) (v : Int) (xfer : Nat → Xfer) : Env := ⟨t, t, fun _ _ => v, xfer⟩

/-- Two sysfs reads: the model name at jiffies 0 on a bus that delivers at the third attempt,
then the presence at jiffies 5000 on a bus that only returns short reads. -/
def sample_queries : List Query :=
  [⟨.PSU_MODEL_NAME, env_at 0 0 third_time_xfer⟩, ⟨.PSU_PRESENT, env_at 5000 0 short_xfer⟩]

/-- A probe in which every kernel call succeeds. -/
def probe_ok : ProbeEnv := ⟨true, true, 0, none⟩

/-! ## Lemmas: machine arithmetic -/

theorem ULONG_SPAN_eq : ULONG_SPAN = 18446744073709551616 := by
  unfold ULONG_SPAN; norm_num

theorem time_after_iff (a b : Nat) : time_after a b = true ↔ 2 ^ 63 ≤ ul_sub b a := by
  have hlt : ul_sub b a < 18446744073709551616 := by
    unfold ul_sub; rw [ULONG_SPAN_eq]; omega
  unfold time_after to_long
  rw [ULONG_SPAN_eq]
  simp only [decide_eq_true_eq]
  have e : ul_sub b a % 18446744073709551616 = ul_sub b a := Nat.mod_eq_of_lt hlt
  rw [e]
  norm_num
  split_ifs with h <;> omega

theorem needs_refresh_hit (HZ now : Nat) (d : as6712_32x_psu_data)
    (hHZ : HZ + HZ / 2 < 2 ^ 63) (hv : d.valid ≠ 0)
    (hd : ul_sub now d.last_updated ≤ HZ + HZ / 2) : needs_refresh HZ now d = false := by
  unfold needs_refresh
  have h1 : time_after now (ul_add (ul_add d.last_updated HZ) (HZ / 2)) = false := by
    rw [Bool.eq_false_iff]
    intro h
    rw [time_after_iff] at h
    unfold ul_sub ul_add at *
    rw [ULONG_SPAN_eq] at *
    norm_num at *
    omega
  simp [h1, hv]

theorem length_store (buf : List Nat) (off : Nat) (bytes : List Nat) (h : off ≤ buf.length) :
    (store buf off bytes).length = max buf.length (off + bytes.length) := by
  unfold store
  simp only [List.length_append, List.length_take, List.length_drop]
  omega

theorem length_le_length_store (buf : List Nat) (off : Nat) (bytes : List Nat) :
    buf.length ≤ (store buf off bytes).length := by
  unfold store
  simp only [List.length_append, List.length_take, List.length_drop]
  omega

theorem take_store_zero (buf bytes : List Nat) :
    (store buf 0 bytes).take bytes.length = bytes := by
  unfold store
  simp

theorem c_str_store_zero_nul (buf : List Nat) : c_str (store buf 0 [0]) = [] := by
  unfold c_str store
  simp

theorem c_str_memset_zero (buf : List Nat) (n : Nat) (hn : 0 < n) :
    c_str (memset buf 0 n) = [] := by
  obtain ⟨m, rfl⟩ : ∃ m, n = m + 1 := ⟨n - 1, by omega⟩
  unfold c_str memset store
  simp [List.replicate_succ]

/-! ## Lemmas: the retry loop -/

theorem read_block_loop_all_fail (xfer : Nat → Xfer) (command : Nat) (data_len : Int) :
    ∀ (rc k : Nat) (result : Int) (data : List Nat) (tr : List Event),
      (∀ j, j < rc → attempt_failed (xfer (k + j)) data_len) →
      (read_block_loop xfer command data_len rc k result data tr).trace
          = tr ++ (List.replicate rc (failed_round command data_len)).flatten ∧
      (read_block_loop xfer command data_len rc k result data tr).result
          = (if rc = 0 then result else failure_code (xfer (k + rc - 1))) := by
  intro rc
  induction rc with
  | zero => intro k result data tr _; simp [read_block_loop]
  | succ n ih =>
    intro k result data tr hf
    have h0 : attempt_failed (xfer k) data_len := by simpa using hf 0 (Nat.succ_pos n)
    have hrest : ∀ j, j < n → attempt_failed (xfer (k + 1 + j)) data_len := by
      intro j hj
      have := hf (j + 1) (by omega)
      rwa [show k + (j + 1) = k + 1 + j by omega] at this
    have hidx : k + 1 + n - 1 = k + (n + 1) - 1 := by omega
    by_cases hneg : (xfer k).result < 0
    · have step : read_block_loop xfer command data_len (n + 1) k result data tr
          = read_block_loop xfer command data_len n (k + 1) (xfer k).result
              (store data 0 (xfer k).bytes)
              (tr ++ [Event.block_read command (data_len % 256).toNat] ++ [Event.msleep 10]) := by
        simp [read_block_loop, hneg]
      rw [step]
      obtain ⟨ht, hr⟩ := ih (k + 1) (xfer k).result (store data 0 (xfer k).bytes)
        (tr ++ [Event.block_read command (data_len % 256).toNat] ++ [Event.msleep 10]) hrest
      refine ⟨?_, ?_⟩
      · rw [ht]; simp [List.replicate_succ, failed_round]
      · rw [hr, hidx]
        by_cases hn : n = 0
        · subst hn; simp [failure_code, hneg]
        · simp [hn]
    · have hne : (xfer k).result ≠ data_len := by
        rcases h0 with h | h
        · exact absurd h hneg
        · exact h
      have step : read_block_loop xfer command data_len (n + 1) k result data tr
          = read_block_loop xfer command data_len n (k + 1) (- EIO)
              (store data 0 (xfer k).bytes)
              (tr ++ [Event.block_read command (data_len % 256).toNat] ++ [Event.msleep 10]) := by
        simp [read_block_loop, hneg, hne]
      rw [step]
      obtain ⟨ht, hr⟩ := ih (k + 1) (- EIO) (store data 0 (xfer k).bytes)
        (tr ++ [Event.block_read command (data_len % 256).toNat] ++ [Event.msleep 10]) hrest
      refine ⟨?_, ?_⟩
      · rw [ht]; simp [List.replicate_succ, failed_round]
      · rw [hr, hidx]
        by_cases hn : n = 0
        · subst hn; simp [failure_code, hneg]
        · simp [hn]

theorem read_block_loop_success (xfer : Nat → Xfer) (command : Nat) (data_len : Int) :
    ∀ (n rc k : Nat) (result : Int) (data : List Nat) (tr : List Event),
      n < rc →
      (∀ j, j < n → attempt_failed (xfer (k + j)) data_len) →
      0 ≤ (xfer (k + n)).result → (xfer (k + n)).result = data_len →
      ∃ before : List Nat,
        read_block_loop xfer command data_len rc k result data tr
          = ⟨0, store before 0 (xfer (k + n)).bytes,
              tr ++ (List.replicate n (failed_round command data_len)).flatten
                ++ [Event.block_read command (data_len % 256).toNat]⟩ := by
  intro n
  induction n with
  | zero =>
    intro rc k result data tr hrc _ hnn heq
    obtain ⟨m, rfl⟩ : ∃ m, rc = m + 1 := ⟨rc - 1, by omega⟩
    simp only [Nat.add_zero] at hnn heq
    refine ⟨data, ?_⟩
    have hneg : ¬ (xfer k).result < 0 := by omega
    have hneg2 : ¬ data_len < 0 := by omega
    simp [read_block_loop, heq, hneg2]
  | succ n ih =>
    intro rc k result data tr hrc hf hnn heq
    obtain ⟨m, rfl⟩ : ∃ m, rc = m + 1 := ⟨rc - 1, by omega⟩
    have h0 : attempt_failed (xfer k) data_len := by simpa using hf 0 (Nat.succ_pos n)
    have hrest : ∀ j, j < n → attempt_failed (xfer (k + 1 + j)) data_len := by
      intro j hj
      have := hf (j + 1) (by omega)
      rwa [show k + (j + 1) = k + 1 + j by omega] at this
    have hidx : k + 1 + n = k + (n + 1) := by omega
    rw [← hidx] at hnn heq
    by_cases hneg : (xfer k).result < 0
    · have step : read_block_loop xfer command data_len (m + 1) k result data tr
          = read_block_loop xfer command data_len m (k + 1) (xfer k).result
              (store data 0 (xfer k).bytes)
              (tr ++ [Event.block_read command (data_len % 256).toNat] ++ [Event.msleep 10]) := by
        simp [read_block_loop, hneg]
      obtain ⟨before, hb⟩ := ih m (k + 1) (xfer k).result (store data 0 (xfer k).bytes)
        (tr ++ [Event.block_read command (data_len % 256).toNat] ++ [Event.msleep 10])
        (by omega) hrest hnn heq
      refine ⟨before, ?_⟩
      rw [step, hb, ← hidx]
      simp [List.replicate_succ, failed_round]
    · have hne : (xfer k).result ≠ data_len := by
        rcases h0 with h | h
        · exact absurd h hneg
        · exact h
      have step : read_block_loop xfer command data_len (m + 1) k result data tr
          = read_block_loop xfer command data_len m (k + 1) (- EIO)
              (store data 0 (xfer k).bytes)
              (tr ++ [Event.block_read command (data_len % 256).toNat] ++ [Event.msleep 10]) := by
        simp [read_block_loop, hneg, hne]
      obtain ⟨before, hb⟩ := ih m (k + 1) (- EIO) (store data 0 (xfer k).bytes)
        (tr ++ [Event.block_read command (data_len % 256).toNat] ++ [Event.msleep 10])
        (by omega) hrest hnn heq
      refine ⟨before, ?_⟩
      rw [step, hb, ← hidx]
      simp [List.replicate_succ, failed_round]

theorem failure_code_neg (x : Xfer) : failure_code x < 0 := by
  unfold failure_code EIO
  split_ifs with h
  · exact h
  · norm_num

theorem block_reads_failed_rounds (command : Nat) (data_len : Int) (n : Nat) :
    block_reads (List.replicate n (failed_round command data_len)).flatten = n := by
  induction n with
  | zero => simp [block_reads]
  | succ m ih =>
    unfold block_reads at *
    simp [List.replicate_succ, failed_round] at *

/-! ## Lemmas: decoding -/

theorem and_one_cases (x : Nat) : x &&& 1 = 0 ∨ x &&& 1 = 1 := by
  rw [Nat.and_one_is_mod]; omega

theorem fmt_d_zero : fmt_d 0 = [48] := by decide

theorem fmt_d_one : fmt_d 1 = [49] := by decide

theorem show_status_value_present (d : as6712_32x_psu_data) (h : d.index = 1 ∨ d.index = 2) :
    show_status_value .PSU_PRESENT d
      = if (d.status >>> ((d.index - 1) * 4)) &&& 1 = 0 then 1 else 0 := by
  unfold show_status_value c_shr c_not to_u8
  rcases h with h | h <;> rw [h] <;> simp <;> split_ifs <;> omega

theorem show_status_value_power_good (d : as6712_32x_psu_data) (h : d.index = 1 ∨ d.index = 2) :
    show_status_value .PSU_POWER_GOOD d = (d.status >>> ((d.index - 1) * 4 + 1)) &&& 1 := by
  unfold show_status_value c_shr to_u8
  rcases h with h | h <;> rw [h] <;> simp <;> omega

theorem psu_present_eq_bit (d : as6712_32x_psu_data) (h : d.index = 1 ∨ d.index = 2) :
    psu_present d = if (d.status >>> ((d.index - 1) * 4)) &&& 1 = 0 then 1 else 0 := by
  unfold psu_present c_shr c_not
  rcases h with h | h <;> rw [h] <;> simp

/-! ## Lemmas: traces and buffer length of the retry loop -/

theorem length_read_block_loop (xfer : Nat → Xfer) (command : Nat) (data_len : Int) (cap : Nat) :
    ∀ (rc k : Nat) (result : Int) (data : List Nat) (tr : List Event),
      data.length = cap →
      (∀ j, j < rc → (xfer (k + j)).bytes.length ≤ cap) →
      (read_block_loop xfer command data_len rc k result data tr).data.length = cap := by
  intro rc
  induction rc with
  | zero => intro k result data tr hl _; simpa [read_block_loop] using hl
  | succ n ih =>
    intro k result data tr hl hb
    have h0 : (xfer k).bytes.length ≤ cap := by simpa using hb 0 (Nat.succ_pos n)
    have hrest : ∀ j, j < n → (xfer (k + 1 + j)).bytes.length ≤ cap := by
      intro j hj
      have := hb (j + 1) (by omega)
      rwa [show k + (j + 1) = k + 1 + j by omega] at this
    have hst : (store data 0 (xfer k).bytes).length = cap := by
      rw [length_store _ _ _ (Nat.zero_le _), hl]; omega
    by_cases hneg : (xfer k).result < 0
    · simp only [read_block_loop, hneg, if_true]
      exact ih _ _ _ _ hst hrest
    · by_cases hne : (xfer k).result = data_len
      · have hneg2 : ¬ data_len < 0 := hne ▸ hneg
        simp [read_block_loop, hne, hneg2, hst]
      · simp only [read_block_loop, hneg, if_false, ne_eq, hne, not_false_eq_true, if_true]
        exact ih _ _ _ _ hst hrest

/-! ## Decoding of the status register -/

/-- C1: for every 8-bit status `s` and index `i` in {1, 2}, `show_status` on a record that
(after the refresh-if-stale it starts with) has status `s` and index `i` prints
`!((s >> ((i-1)*4)) & 1)` for `PSU_PRESENT` and `(s >> ((i-1)*4+1)) & 1` for `PSU_POWER_GOOD`,
as one decimal digit followed by a newline. -/
theorem show_status_decodes (HZ addr : Nat) (env : Env) (d : as6712_32x_psu_data) (s i : Nat)
    (_hs : s < 256) (hi : i = 1 ∨ i = 2)
    (hst : (as6712_32x_psu_update_device HZ addr env d).data.status = s)
    (hix : (as6712_32x_psu_update_device HZ addr env d).data.index = i) :
    (show_status HZ addr env .PSU_PRESENT d).buf
        = [48 + (if (s >>> ((i - 1) * 4)) &&& 1 = 0 then 1 else 0), 10] ∧
    (show_status HZ addr env .PSU_POWER_GOOD d).buf
        = [48 + ((s >>> ((i - 1) * 4 + 1)) &&& 1), 10] := by
  have hidx : (as6712_32x_psu_update_device HZ addr env d).data.index = 1 ∨
      (as6712_32x_psu_update_device HZ addr env d).data.index = 2 := by rw [hix]; exact hi
  constructor
  · unfold show_status
    simp only [show_status_value_present _ hidx, hst, hix]
    split_ifs
    · rw [fmt_d_one]; rfl
    · rw [fmt_d_zero]; rfl
  · unfold show_status
    simp only [show_status_value_power_good _ hidx, hst, hix]
    rcases and_one_cases (s >>> ((i - 1) * 4 + 1)) with e | e <;> rw [e]
    · rw [fmt_d_zero]; rfl
    · rw [fmt_d_one]; rfl

/-- C1, the two scenarios of the claim: status `0b00000000`, index 1 prints presence 1 and
power-good 0; status `0b00000011`, index 1 prints presence 0 and power-good 1. -/
theorem show_status_decodes_witness :
    ((0 : Nat) < 256 ∧ ((1 : Nat) = 1 ∨ (1 : Nat) = 2) ∧
      (as6712_32x_psu_update_device 1000 0x50 (env_at 1 7 nack_xfer) (cached_record 0)).data.status
        = 0 ∧
      (as6712_32x_psu_update_device 1000 0x50 (env_at 1 7 nack_xfer) (cached_record 0)).data.index
        = 1 ∧
      (show_status 1000 0x50 (env_at 1 7 nack_xfer) .PSU_PRESENT (cached_record 0)).buf = [49, 10] ∧
      (show_status 1000 0x50 (env_at 1 7 nack_xfer) .PSU_POWER_GOOD (cached_record 0)).buf
        = [48, 10]) ∧
    ((3 : Nat) < 256 ∧
      (as6712_32x_psu_update_device 1000 0x50 (env_at 1 7 nack_xfer) (cached_record 3)).data.status
        = 3 ∧
      (show_status 1000 0x50 (env_at 1 7 nack_xfer) .PSU_PRESENT (cached_record 3)).buf = [48, 10] ∧
      (show_status 1000 0x50 (env_at 1 7 nack_xfer) .PSU_POWER_GOOD (cached_record 3)).buf
        = [49, 10]) :=
  ⟨⟨by decide, by decide, by decide, by decide,
      show_status_decodes 1000 0x50 (env_at 1 7 nack_xfer) (cached_record 0) 0 1
        (by decide) (by decide) (by decide) (by decide)⟩,
    ⟨by decide, by decide,
      show_status_decodes 1000 0x50 (env_at 1 7 nack_xfer) (cached_record 3) 3 1
        (by decide) (by decide) (by decide) (by decide)⟩⟩

/-! ## The cache gate -/

theorem update_device_hit (HZ addr : Nat) (env : Env) (d : as6712_32x_psu_data)
    (h : needs_refresh HZ env.jiffies_test d = false) :
    as6712_32x_psu_update_device HZ addr env d = ⟨d, []⟩ := by
  unfold as6712_32x_psu_update_device
  simp [h]

theorem update_device_miss (HZ addr : Nat) (env : Env) (d : as6712_32x_psu_data)
    (h : needs_refresh HZ env.jiffies_test d = true) :
    as6712_32x_psu_update_device HZ addr env d
      = if psu_present (with_status (env.cpld_read 0x60 0x2) d) ≠ 0 then
          ⟨{ valid := 1, last_updated := env.jiffies_stamp, index := d.index,
             status := (with_status (env.cpld_read 0x60 0x2) d).status,
             model_name :=
               if (as6712_32x_psu_read_block env.xfer (model_command addr)
                    (memset d.model_name 0 14) ((13 : Nat) : Int)).result < 0 then
                 store (as6712_32x_psu_read_block env.xfer (model_command addr)
                    (memset d.model_name 0 14) ((13 : Nat) : Int)).data 0 [0]
               else
                 store (as6712_32x_psu_read_block env.xfer (model_command addr)
                    (memset d.model_name 0 14) ((13 : Nat) : Int)).data 13 [0] },
            Event.cpld_read 0x60 0x2 ::
              (as6712_32x_psu_read_block env.xfer (model_command addr)
                (memset d.model_name 0 14) ((13 : Nat) : Int)).trace⟩
        else
          ⟨{ valid := 1, last_updated := env.jiffies_stamp, index := d.index,
             status := (with_status (env.cpld_read 0x60 0x2) d).status,
             model_name := memset d.model_name 0 14 },
            [Event.cpld_read 0x60 0x2]⟩ := by
  unfold as6712_32x_psu_update_device with_status model_command
  simp only [h, if_true, psu_present]
  by_cases hv : env.cpld_read 0x60 0x2 < 0
  · simp only [hv, if_true]
    split_ifs <;> rfl
  · simp only [hv, if_false]
    split_ifs <;> rfl

theorem update_device_miss_fields (HZ addr : Nat) (env : Env) (d : as6712_32x_psu_data)
    (h : needs_refresh HZ env.jiffies_test d = true) :
    (as6712_32x_psu_update_device HZ addr env d).data.valid = 1 ∧
    (as6712_32x_psu_update_device HZ addr env d).data.last_updated = env.jiffies_stamp ∧
    (as6712_32x_psu_update_device HZ addr env d).data.index = d.index ∧
    (as6712_32x_psu_update_device HZ addr env d).data.status
      = (with_status (env.cpld_read 0x60 0x2) d).status ∧
    (as6712_32x_psu_update_device HZ addr env d).trace ≠ [] := by
  rw [update_device_miss HZ addr env d h]
  split_ifs <;> simp

theorem update_device_trace_nonempty (HZ addr : Nat) (env : Env) (d : as6712_32x_psu_data)
    (h : (as6712_32x_psu_update_device HZ addr env d).trace ≠ []) :
    needs_refresh HZ env.jiffies_test d = true := by
  by_contra hc
  rw [Bool.not_eq_true] at hc
  rw [update_device_hit HZ addr env d hc] at h
  exact h rfl

/-- C2: on a record with `valid` set, queried at a time `now` with `now - last_updated` at
most `HZ + HZ/2` ticks (the `unsigned long` difference), `as6712_32x_psu_update_device` makes no
call at all: no CPLD read, no block read.  Hence of two queries, the second made within
`HZ + HZ/2` ticks of the time the first one stamped, the second makes no transport call when the
first one made any. -/
theorem cache_hit_no_transport (HZ addr : Nat) (hHZ : HZ + HZ / 2 < 2 ^ 63) :
    (∀ (env : Env) (d : as6712_32x_psu_data), d.valid ≠ 0 →
        ul_sub env.jiffies_test d.last_updated ≤ HZ + HZ / 2 →
        (as6712_32x_psu_update_device HZ addr env d).trace = []) ∧
    (∀ (env₁ env₂ : Env) (d : as6712_32x_psu_data),
        ul_sub env₂.jiffies_test env₁.jiffies_stamp ≤ HZ + HZ / 2 →
        (as6712_32x_psu_update_device HZ addr env₁ d).trace ≠ [] →
        (as6712_32x_psu_update_device HZ addr env₂
          (as6712_32x_psu_update_device HZ addr env₁ d).data).trace = []) := by
  constructor
  · intro env d hv hd
    rw [update_device_hit HZ addr env d (needs_refresh_hit HZ _ d hHZ hv hd)]
  · intro env₁ env₂ d hd h1
    obtain ⟨hv, hl, -, -, -⟩ :=
      update_device_miss_fields HZ addr env₁ d (update_device_trace_nonempty HZ addr env₁ d h1)
    rw [update_device_hit HZ addr env₂ _ (needs_refresh_hit HZ _ _ hHZ (by rw [hv]; decide)
      (by rw [hl]; exact hd))]

/-- C2 at `HZ = 1000`: a valid record stamped at 0 and read at jiffies 1500 makes no call; a
read at jiffies 2000 refreshes, and a second read at jiffies 3500 makes no call. -/
theorem cache_hit_no_transport_witness :
    (1000 + 1000 / 2 < 2 ^ 63) ∧
    (as6712_32x_psu_update_device 1000 0x50 (env_at 1500 0 third_time_xfer)
      (cached_record 0)).trace = [] ∧
    (as6712_32x_psu_update_device 1000 0x50 (env_at 2000 0 third_time_xfer)
      (cached_record 0)).trace ≠ [] ∧
    (as6712_32x_psu_update_device 1000 0x50 (env_at 3500 0 third_time_xfer)
      (as6712_32x_psu_update_device 1000 0x50 (env_at 2000 0 third_time_xfer)
        (cached_record 0)).data).trace = [] :=
  ⟨by decide,
    (cache_hit_no_transport 1000 0x50 (by decide)).1 (env_at 1500 0 third_time_xfer)
      (cached_record 0) (by decide) (by decide),
    by decide,
    (cache_hit_no_transport 1000 0x50 (by decide)).2 (env_at 2000 0 third_time_xfer)
      (env_at 3500 0 third_time_xfer) (cached_record 0) (by decide) (by decide)⟩

/-- C10 as stated fails: with `HZ = 1000`, a valid record stamped at jiffies 0 and read at
jiffies 1 is a cache hit (1 tick elapsed, `valid` set), and on return `last_updated` is still 0,
not 1. -/
theorem cache_hit_stamp_counterexample :
    (cached_record 0).valid ≠ 0 ∧
    ul_sub (env_at 1 0 nack_xfer).jiffies_test (cached_record 0).last_updated ≤ 1000 + 1000 / 2 ∧
    (as6712_32x_psu_update_device 1000 0x50 (env_at 1 0 nack_xfer)
      (cached_record 0)).data.last_updated = 0 ∧
    (as6712_32x_psu_update_device 1000 0x50 (env_at 1 0 nack_xfer)
      (cached_record 0)).data.last_updated ≠ (env_at 1 0 nack_xfer).jiffies_test ∧
    (as6712_32x_psu_update_device 1000 0x50 (env_at 1 0 nack_xfer)
      (cached_record 0)).data.last_updated ≠ (env_at 1 0 nack_xfer).jiffies_stamp := by
  decide

/-- C10, amended: on a cache hit (`valid` set and `now - last_updated` at most `HZ + HZ/2` ticks)
`as6712_32x_psu_update_device` skips the reads and the stamping alike: it makes no call and
returns the record unchanged, so `last_updated` keeps its previous value and `valid` stays
set. -/
theorem cache_hit_record_unchanged (HZ addr : Nat) (env : Env) (d : as6712_32x_psu_data)
    (hHZ : HZ + HZ / 2 < 2 ^ 63) (hv : d.valid ≠ 0)
    (hd : ul_sub env.jiffies_test d.last_updated ≤ HZ + HZ / 2) :
    (as6712_32x_psu_update_device HZ addr env d).data = d ∧
    (as6712_32x_psu_update_device HZ addr env d).data.last_updated = d.last_updated ∧
    (as6712_32x_psu_update_device HZ addr env d).data.valid ≠ 0 ∧
    (as6712_32x_psu_update_device HZ addr env d).trace = [] := by
  rw [update_device_hit HZ addr env d (needs_refresh_hit HZ _ d hHZ hv hd)]
  exact ⟨rfl, rfl, hv, rfl⟩

/-- C10 amended, at `HZ = 1000`: a valid record stamped at 0 and read at jiffies 1 comes back
unchanged. -/
theorem cache_hit_record_unchanged_witness :
    (1000 + 1000 / 2 < 2 ^ 63) ∧ (cached_record 3).valid ≠ 0 ∧
    ul_sub (env_at 1 0 third_time_xfer).jiffies_test (cached_record 3).last_updated
      ≤ 1000 + 1000 / 2 ∧
    (as6712_32x_psu_update_device 1000 0x50 (env_at 1 0 third_time_xfer) (cached_record 3)).data
      = cached_record 3 :=
  ⟨by decide, by decide, by decide,
    (cache_hit_record_unchanged 1000 0x50 (env_at 1 0 third_time_xfer) (cached_record 3)
      (by decide) (by decide) (by decide)).1⟩

/-! ## The refresh -/

/-- C5: in a refresh, a CPLD read that returns `v ≥ 0` overwrites `status` with `v` (as a `u8`:
`v` itself for a byte), and one that returns a negative value leaves `status` as it was; either
way the refresh ends with `valid = 1` and `last_updated = jiffies`, nothing in the result tells
the caller of the failure, and a query within `HZ + HZ/2` ticks of that stamp is a cache hit: it
makes no call and returns the record as the refresh left it. -/
theorem refresh_status_and_stamp (HZ addr : Nat) (env : Env) (d : as6712_32x_psu_data)
    (href : needs_refresh HZ env.jiffies_test d = true) :
    (0 ≤ env.cpld_read 0x60 0x2 →
      (as6712_32x_psu_update_device HZ addr env d).data.status
          = (env.cpld_read 0x60 0x2).toNat % 256 ∧
      (env.cpld_read 0x60 0x2 < 256 →
        ((as6712_32x_psu_update_device HZ addr env d).data.status : Int)
          = env.cpld_read 0x60 0x2)) ∧
    (env.cpld_read 0x60 0x2 < 0 →
      (as6712_32x_psu_update_device HZ addr env d).data.status = d.status) ∧
    (as6712_32x_psu_update_device HZ addr env d).data.valid = 1 ∧
    (as6712_32x_psu_update_device HZ addr env d).data.last_updated = env.jiffies_stamp ∧
    (HZ + HZ / 2 < 2 ^ 63 → ∀ env₂ : Env,
      ul_sub env₂.jiffies_test env.jiffies_stamp ≤ HZ + HZ / 2 →
      as6712_32x_psu_update_device HZ addr env₂ (as6712_32x_psu_update_device HZ addr env d).data
        = ⟨(as6712_32x_psu_update_device HZ addr env d).data, []⟩) := by
  obtain ⟨hv, hl, -, hs, -⟩ := update_device_miss_fields HZ addr env d href
  refine ⟨?_, ?_, hv, hl, ?_⟩
  · intro h0
    have hn : ¬ env.cpld_read 0x60 0x2 < 0 := by omega
    have e : (as6712_32x_psu_update_device HZ addr env d).data.status
        = (env.cpld_read 0x60 0x2).toNat % 256 := by
      rw [hs]; simp [with_status, hn, to_u8]
    refine ⟨e, ?_⟩
    intro h256
    rw [e]
    omega
  · intro hneg
    rw [hs]; simp [with_status, hneg]
  · intro hHZ env₂ hd
    exact update_device_hit HZ addr env₂ _
      (needs_refresh_hit HZ _ _ hHZ (by rw [hv]; decide) (by rw [hl]; exact hd))

/-- C5 at `HZ = 1000`, on a record whose cache is not valid yet and holds status `0x11`: a CPLD
read that fails with `-EIO` at jiffies 7 leaves status `0x11`, and the record is valid and
stamped 7. -/
theorem refresh_status_and_stamp_witness :
    needs_refresh 1000 (env_at 7 (- EIO) nack_xfer).jiffies_test
      { cached_record 0x11 with valid := 0 } = true ∧
    (as6712_32x_psu_update_device 1000 0x50 (env_at 7 (- EIO) nack_xfer)
      { cached_record 0x11 with valid := 0 }).data.status = 0x11 ∧
    (as6712_32x_psu_update_device 1000 0x50 (env_at 7 (- EIO) nack_xfer)
      { cached_record 0x11 with valid := 0 }).data.valid = 1 ∧
    (as6712_32x_psu_update_device 1000 0x50 (env_at 7 (- EIO) nack_xfer)
      { cached_record 0x11 with valid := 0 }).data.last_updated = 7 :=
  ⟨by decide,
    (refresh_status_and_stamp 1000 0x50 (env_at 7 (- EIO) nack_xfer)
      { cached_record 0x11 with valid := 0 } (by decide)).2.1 (by decide),
    (refresh_status_and_stamp 1000 0x50 (env_at 7 (- EIO) nack_xfer)
      { cached_record 0x11 with valid := 0 } (by decide)).2.2.1,
    (refresh_status_and_stamp 1000 0x50 (env_at 7 (- EIO) nack_xfer)
      { cached_record 0x11 with valid := 0 } (by decide)).2.2.2.1⟩

/-- C4: after a refresh of a record of index 1 or 2, `model_name` is the empty string whenever
bit `(index-1)*4` of the (possibly just-updated) status is 1, which says the PSU of this
record's index is absent, or that bit is 0 (the PSU is present) and the retrying block read
failed, whatever the record held before and whatever bytes the failed attempts stored in the
buffer. -/
theorem model_name_blank_after_refresh (HZ addr : Nat) (env : Env) (d : as6712_32x_psu_data)
    (href : needs_refresh HZ env.jiffies_test d = true)
    (hidx : (as6712_32x_psu_update_device HZ addr env d).data.index = 1 ∨
      (as6712_32x_psu_update_device HZ addr env d).data.index = 2)
    (hblank :
      ((as6712_32x_psu_update_device HZ addr env d).data.status >>>
          (((as6712_32x_psu_update_device HZ addr env d).data.index - 1) * 4)) &&& 1 = 1 ∨
      (((as6712_32x_psu_update_device HZ addr env d).data.status >>>
          (((as6712_32x_psu_update_device HZ addr env d).data.index - 1) * 4)) &&& 1 = 0 ∧
        (as6712_32x_psu_read_block env.xfer (if addr = 0x38 ∨ addr = 0x3b then 0x26 else 0x50)
          (memset d.model_name 0 14) ((13 : Nat) : Int)).result < 0)) :
    c_str (as6712_32x_psu_update_device HZ addr env d).data.model_name = [] ∧
    (show_model_name HZ addr env d).buf = [10] := by
  have hp : psu_present (as6712_32x_psu_update_device HZ addr env d).data
      = psu_present (with_status (env.cpld_read 0x60 0x2) d) := by
    obtain ⟨-, -, hi, hs, -⟩ := update_device_miss_fields HZ addr env d href
    unfold psu_present
    rw [hi, hs]
    unfold with_status
    split_ifs <;> rfl
  have hbit := psu_present_eq_bit _ hidx
  rw [hp] at hbit
  have key : c_str (as6712_32x_psu_update_device HZ addr env d).data.model_name = [] := by
    rw [update_device_miss HZ addr env d href]
    rcases hblank with h1 | ⟨h0, hfail⟩
    · have habs : psu_present (with_status (env.cpld_read 0x60 0x2) d) = 0 := by
        rw [hbit, h1]; rfl
      rw [if_neg (by simp [habs])]
      exact c_str_memset_zero _ 14 (by decide)
    · have hpres : psu_present (with_status (env.cpld_read 0x60 0x2) d) ≠ 0 := by
        rw [hbit, h0]; decide
      rw [if_pos hpres]
      have hfail2 : (as6712_32x_psu_read_block env.xfer (model_command addr)
          (memset d.model_name 0 14) ((13 : Nat) : Int)).result < 0 := hfail
      simp only [hfail2, if_true]
      exact c_str_store_zero_nul _
  refine ⟨key, ?_⟩
  unfold show_model_name
  simp only [key]
  rfl

/-- C4 at `HZ = 1000`, on valid records stamped at 0 that cache the name "AB", read at jiffies
2000.  PSU 1 with the CPLD reporting `0x00` (present) and every block read 5 bytes short: the
name comes back empty.  PSU 1 with the CPLD reporting `0x01` (bit 0 set, absent): empty.  PSU 2
at address 0x53 with the CPLD reporting `0x10` (bit 4 set, absent, while bit 0 says PSU 1 is
present) on a bus that would deliver a name: empty. -/
theorem model_name_blank_after_refresh_witness :
    (needs_refresh 1000 (env_at 2000 0 short_xfer).jiffies_test (cached_record 0) = true ∧
      ((as6712_32x_psu_update_device 1000 0x50 (env_at 2000 0 short_xfer)
        (cached_record 0)).data.status >>> ((1 - 1) * 4)) &&& 1 = 0 ∧
      (as6712_32x_psu_read_block (env_at 2000 0 short_xfer).xfer 0x50
        (memset (cached_record 0).model_name 0 14) ((13 : Nat) : Int)).result < 0 ∧
      c_str (as6712_32x_psu_update_device 1000 0x50 (env_at 2000 0 short_xfer)
        (cached_record 0)).data.model_name = []) ∧
    (needs_refresh 1000 (env_at 2000 1 third_time_xfer).jiffies_test (cached_record 0) = true ∧
      ((as6712_32x_psu_update_device 1000 0x50 (env_at 2000 1 third_time_xfer)
        (cached_record 0)).data.status >>> ((1 - 1) * 4)) &&& 1 = 1 ∧
      c_str (as6712_32x_psu_update_device 1000 0x50 (env_at 2000 1 third_time_xfer)
        (cached_record 0)).data.model_name = []) ∧
    (needs_refresh 1000 (env_at 2000 0x10 third_time_xfer).jiffies_test
        { cached_record 0 with index := 2 } = true ∧
      (as6712_32x_psu_update_device 1000 0x53 (env_at 2000 0x10 third_time_xfer)
        { cached_record 0 with index := 2 }).data.index = 2 ∧
      ((as6712_32x_psu_update_device 1000 0x53 (env_at 2000 0x10 third_time_xfer)
        { cached_record 0 with index := 2 }).data.status >>> ((2 - 1) * 4)) &&& 1 = 1 ∧
      c_str (as6712_32x_psu_update_device 1000 0x53 (env_at 2000 0x10 third_time_xfer)
        { cached_record 0 with index := 2 }).data.model_name = [] ∧
      (show_model_name 1000 0x53 (env_at 2000 0x10 third_time_xfer)
        { cached_record 0 with index := 2 }).buf = [10]) :=
  ⟨⟨by decide, by decide, by decide,
      (model_name_blank_after_refresh 1000 0x50 (env_at 2000 0 short_xfer) (cached_record 0)
        (by decide) (by decide) (Or.inr ⟨by decide, by decide⟩)).1⟩,
    ⟨by decide, by decide,
      (model_name_blank_after_refresh 1000 0x50 (env_at 2000 1 third_time_xfer) (cached_record 0)
        (by decide) (by decide) (Or.inl (by decide))).1⟩,
    ⟨by decide, by decide, by decide,
      model_name_blank_after_refresh 1000 0x53 (env_at 2000 0x10 third_time_xfer)
        { cached_record 0 with index := 2 } (by decide) (by decide) (Or.inl (by decide))⟩⟩

/-! ## The retrying block read -/

/-- C7: if each of the first five block-read transactions fails (a negative result, or a byte
count different from the requested length), `as6712_32x_psu_read_block` makes exactly five
transactions, each followed by `msleep(10)`, makes no sixth, and returns a negative value. -/
theorem read_block_retry_bound (xfer : Nat → Xfer) (command : Nat) (data : List Nat)
    (data_len : Int) (hfail : ∀ k, k < 5 → attempt_failed (xfer k) data_len) :
    (as6712_32x_psu_read_block xfer command data data_len).trace
      = [Event.block_read command (data_len % 256).toNat, Event.msleep 10,
         Event.block_read command (data_len % 256).toNat, Event.msleep 10,
         Event.block_read command (data_len % 256).toNat, Event.msleep 10,
         Event.block_read command (data_len % 256).toNat, Event.msleep 10,
         Event.block_read command (data_len % 256).toNat, Event.msleep 10] ∧
    block_reads (as6712_32x_psu_read_block xfer command data data_len).trace = 5 ∧
    (as6712_32x_psu_read_block xfer command data data_len).result < 0 := by
  have hf : ∀ j, j < 5 → attempt_failed (xfer (0 + j)) data_len := by
    intro j hj; simpa using hfail j hj
  obtain ⟨ht, hr⟩ := read_block_loop_all_fail xfer command data_len 5 0 0 data [] hf
  unfold as6712_32x_psu_read_block
  refine ⟨?_, ?_, ?_⟩
  · rw [ht]; rfl
  · rw [ht, List.nil_append, block_reads_failed_rounds]
  · rw [hr]; exact failure_code_neg _

/-- C7 on a bus that refuses every read, and on one that returns 5 bytes for 13 every time. -/
theorem read_block_retry_bound_witness :
    ((∀ k, k < 5 → attempt_failed (nack_xfer k) 13) ∧
      block_reads (as6712_32x_psu_read_block nack_xfer 0x50 (List.replicate 14 0) 13).trace = 5 ∧
      (as6712_32x_psu_read_block nack_xfer 0x50 (List.replicate 14 0) 13).result < 0) ∧
    ((∀ k, k < 5 → attempt_failed (short_xfer k) 13) ∧
      block_reads (as6712_32x_psu_read_block short_xfer 0x26 (List.replicate 14 0) 13).trace = 5 ∧
      (as6712_32x_psu_read_block short_xfer 0x26 (List.replicate 14 0) 13).result < 0) :=
  ⟨⟨by decide,
      (read_block_retry_bound nack_xfer 0x50 (List.replicate 14 0) 13 (by decide)).2⟩,
    ⟨by decide,
      (read_block_retry_bound short_xfer 0x26 (List.replicate 14 0) 13 (by decide)).2⟩⟩

/-- C8: for every `k` from 1 to 5, if the first `k - 1` block-read transactions fail and
transaction `k` returns exactly the requested length without a transport error,
`as6712_32x_psu_read_block` returns 0 after exactly `k` transactions (`k - 1` of them followed
by `msleep(10)`, none after the `k`-th), and the buffer starts with the bytes transaction `k`
delivered. -/
theorem read_block_retry_success (xfer : Nat → Xfer) (command : Nat) (data : List Nat)
    (data_len : Int) (k : Nat) (hk1 : 1 ≤ k) (hk5 : k ≤ 5)
    (hfail : ∀ j, j < k - 1 → attempt_failed (xfer j) data_len)
    (hnn : 0 ≤ (xfer (k - 1)).result) (hlen : (xfer (k - 1)).result = data_len) :
    (as6712_32x_psu_read_block xfer command data data_len).result = 0 ∧
    (as6712_32x_psu_read_block xfer command data data_len).trace
      = (List.replicate (k - 1)
          [Event.block_read command (data_len % 256).toNat, Event.msleep 10]).flatten
        ++ [Event.block_read command (data_len % 256).toNat] ∧
    block_reads (as6712_32x_psu_read_block xfer command data data_len).trace = k ∧
    (as6712_32x_psu_read_block xfer command data data_len).data.take (xfer (k - 1)).bytes.length
      = (xfer (k - 1)).bytes := by
  have hf : ∀ j, j < k - 1 → attempt_failed (xfer (0 + j)) data_len := by
    intro j hj; simpa using hfail j hj
  obtain ⟨before, hb⟩ := read_block_loop_success xfer command data_len (k - 1) 5 0 0 data []
    (by omega) hf (by simpa using hnn) (by simpa using hlen)
  simp only [Nat.zero_add, List.nil_append] at hb
  unfold as6712_32x_psu_read_block
  rw [hb]
  refine ⟨rfl, rfl, ?_, take_store_zero _ _⟩
  show block_reads ((List.replicate (k - 1) (failed_round command data_len)).flatten
      ++ [Event.block_read command (data_len % 256).toNat]) = k
  have hsplit : block_reads ((List.replicate (k - 1) (failed_round command data_len)).flatten
      ++ [Event.block_read command (data_len % 256).toNat])
      = block_reads (List.replicate (k - 1) (failed_round command data_len)).flatten + 1 := by
    simp [block_reads]
  rw [hsplit, block_reads_failed_rounds]
  omega

/-- C8 at `k = 3`: a refusal, then a short read, then 13 bytes `B`; the call returns 0 after
three transactions and two waits and the buffer holds the 13 bytes of the third. -/
theorem read_block_retry_success_witness :
    (1 ≤ 3) ∧ (3 ≤ 5) ∧ (∀ j, j < 3 - 1 → attempt_failed (third_time_xfer j) 13) ∧
    0 ≤ (third_time_xfer (3 - 1)).result ∧ (third_time_xfer (3 - 1)).result = 13 ∧
    (as6712_32x_psu_read_block third_time_xfer 0x50 (List.replicate 14 0) 13).result = 0 ∧
    (as6712_32x_psu_read_block third_time_xfer 0x50 (List.replicate 14 0) 13).trace
      = [Event.block_read 0x50 13, Event.msleep 10, Event.block_read 0x50 13, Event.msleep 10,
         Event.block_read 0x50 13] ∧
    block_reads (as6712_32x_psu_read_block third_time_xfer 0x50 (List.replicate 14 0) 13).trace
      = 3 ∧
    (as6712_32x_psu_read_block third_time_xfer 0x50 (List.replicate 14 0) 13).data.take 13
      = List.replicate 13 66 :=
  ⟨by decide, by decide, by decide, by decide, by decide,
    read_block_retry_success third_time_xfer 0x50 (List.replicate 14 0) 13 3
      (by decide) (by decide) (by decide) (by decide) (by decide)⟩

/-- C9 as stated fails: on a bus that refuses all five reads with `-ENXIO`,
`as6712_32x_psu_read_block` returns `-ENXIO` (-6), not `-EIO` (-5). -/
theorem read_block_errno_counterexample :
    (∀ k, k < 5 → attempt_failed (nack_xfer k) 13) ∧
    (as6712_32x_psu_read_block nack_xfer 0x50 (List.replicate 14 0) 13).result = -6 ∧
    (as6712_32x_psu_read_block nack_xfer 0x50 (List.replicate 14 0) 13).result ≠ - EIO := by
  decide

/-- C9, amended: after five failed attempts `as6712_32x_psu_read_block` returns a negative
error code: `-EIO` when the fifth attempt returned a wrong byte count, and the fifth attempt's
own transport error code when that attempt failed with a transport error. -/
theorem read_block_failure_code (xfer : Nat → Xfer) (command : Nat) (data : List Nat)
    (data_len : Int) (hfail : ∀ k, k < 5 → attempt_failed (xfer k) data_len) :
    (as6712_32x_psu_read_block xfer command data data_len).result
      = (if (xfer 4).result < 0 then (xfer 4).result else - EIO) ∧
    (as6712_32x_psu_read_block xfer command data data_len).result < 0 := by
  have hf : ∀ j, j < 5 → attempt_failed (xfer (0 + j)) data_len := by
    intro j hj; simpa using hfail j hj
  obtain ⟨-, hr⟩ := read_block_loop_all_fail xfer command data_len 5 0 0 data [] hf
  unfold as6712_32x_psu_read_block
  rw [hr]
  exact ⟨rfl, failure_code_neg _⟩

/-- C9 amended, on a bus that returns 5 bytes for 13 every time: the call returns `-EIO`. -/
theorem read_block_failure_code_witness :
    (∀ k, k < 5 → attempt_failed (short_xfer k) 13) ∧
    (as6712_32x_psu_read_block short_xfer 0x50 (List.replicate 14 0) 13).result = - EIO :=
  ⟨by decide,
    (read_block_failure_code short_xfer 0x50 (List.replicate 14 0) 13 (by decide)).1⟩

/-! ## The model-name buffer -/

theorem c_str_length_lt (buf : List Nat) (h : 0 ∈ buf) : (c_str buf).length < buf.length := by
  unfold c_str
  induction buf with
  | nil => simp at h
  | cons b bs ih =>
    by_cases hb : b = 0
    · subst hb; simp [List.takeWhile]
    · have hmem : 0 ∈ bs := by
        rcases List.mem_cons.mp h with h0 | h0
        · exact absurd h0.symm hb
        · exact h0
      have := ih hmem
      simp only [List.takeWhile_cons, bne_iff_ne, ne_eq, hb, not_false_eq_true, decide_True,
        if_true, List.length_cons]
      omega

theorem zero_mem_store_nul (buf : List Nat) (off : Nat) : 0 ∈ store buf off [0] := by
  unfold store
  simp

theorem length_read_block (xfer : Nat → Xfer) (command : Nat) (data : List Nat) (data_len : Int)
    (h14 : data.length = 14) (hx : ∀ k, k < 5 → (xfer k).bytes.length ≤ 13) :
    (as6712_32x_psu_read_block xfer command data data_len).data.length = 14 := by
  unfold as6712_32x_psu_read_block
  apply length_read_block_loop xfer command data_len 14 5 0 0 data [] h14
  intro j hj
  have := hx j hj
  simp only [Nat.zero_add]
  omega

theorem length_memset_14 (buf : List Nat) (h14 : buf.length = 14) :
    (memset buf 0 14).length = 14 := by
  unfold memset
  rw [length_store _ _ _ (Nat.zero_le _), h14]
  simp

theorem zero_mem_memset_14 (buf : List Nat) : 0 ∈ memset buf 0 14 := by
  unfold memset store
  simp [List.replicate_succ]

theorem buffer_ok_update_device (HZ addr : Nat) (env : Env) (d : as6712_32x_psu_data)
    (hd : buffer_ok d) (hx : ∀ k, k < 5 → (env.xfer k).bytes.length ≤ 13) :
    buffer_ok (as6712_32x_psu_update_device HZ addr env d).data := by
  by_cases href : needs_refresh HZ env.jiffies_test d = true
  · rw [update_device_miss HZ addr env d href]
    have hb := length_read_block env.xfer (model_command addr) (memset d.model_name 0 14)
      ((13 : Nat) : Int) (length_memset_14 _ hd.1) hx
    by_cases hp : psu_present (with_status (env.cpld_read 0x60 0x2) d) ≠ 0
    · rw [if_pos hp]
      by_cases hf : (as6712_32x_psu_read_block env.xfer (model_command addr)
          (memset d.model_name 0 14) ((13 : Nat) : Int)).result < 0
      · simp only [hf, if_true]
        refine ⟨?_, zero_mem_store_nul _ _⟩
        show (store _ 0 [0]).length = 14
        rw [length_store _ _ _ (Nat.zero_le _), hb]; rfl
      · simp only [hf, if_false]
        refine ⟨?_, zero_mem_store_nul _ _⟩
        show (store _ 13 [0]).length = 14
        rw [length_store _ _ _ (by rw [hb]; decide), hb]; rfl
    · rw [if_neg hp]
      exact ⟨length_memset_14 _ hd.1, zero_mem_memset_14 _⟩
  · rw [Bool.not_eq_true] at href
    rw [update_device_hit HZ addr env d href]
    exact hd

theorem sysfs_show_data (HZ addr : Nat) (q : Query) (d : as6712_32x_psu_data) :
    (sysfs_show HZ addr q d).data = (as6712_32x_psu_update_device HZ addr q.env d).data := by
  unfold sysfs_show show_model_name show_status
  split_ifs <;> rfl

theorem buffer_ok_run (HZ addr : Nat) (qs : List Query) :
    ∀ d : as6712_32x_psu_data, buffer_ok d →
      (∀ q, q ∈ qs → ∀ k, k < 5 → (q.env.xfer k).bytes.length ≤ 13) →
      buffer_ok (run HZ addr qs d) := by
  induction qs with
  | nil => intro d hd _; exact hd
  | cons q qs ih =>
    intro d hd hx
    unfold run
    apply ih
    · rw [sysfs_show_data]
      exact buffer_ok_update_device HZ addr q.env d hd (hx q (List.mem_cons_self _ _))
    · intro q' hq'
      exact hx q' (List.mem_cons_of_mem _ hq')

theorem buffer_ok_probe (pe : ProbeEnv) (addr : Nat) (d : as6712_32x_psu_data)
    (h : as6712_32x_psu_probe pe addr = .ok d) : buffer_ok d := by
  unfold as6712_32x_psu_probe at h
  cases hh : pe.hwmon_err with
  | some e =>
    simp only [hh] at h
    split_ifs at h
  | none =>
    simp only [hh] at h
    split_ifs at h <;> cases h <;> exact ⟨rfl, by decide⟩

/-- C6: in every state reached from the record `as6712_32x_psu_probe` leaves (zero-initialised,
index set from the address) by any sequence of sysfs reads, whatever the CPLD reads return and
whatever the block transfers return and store, provided no transfer stores more than the 13
requested bytes: `model_name` is 14 bytes with a NUL among them, the string in it has at most
13 characters; and in the next read from that state the `memset`, each block read and either
terminator store leave the memory 14 bytes long (no store goes past index 13), and
`show_model_name` prints a name of at most 13 characters and a newline. -/
theorem model_name_terminated (HZ addr : Nat) (pe : ProbeEnv) (d₀ : as6712_32x_psu_data)
    (qs : List Query) (hprobe : as6712_32x_psu_probe pe addr = .ok d₀)
    (hxfer : ∀ q, q ∈ qs → ∀ k, k < 5 → (q.env.xfer k).bytes.length ≤ 13) :
    (run HZ addr qs d₀).model_name.length = 14 ∧
    0 ∈ (run HZ addr qs d₀).model_name ∧
    (c_str (run HZ addr qs d₀).model_name).length ≤ 13 ∧
    (∀ env : Env, (∀ k, k < 5 → (env.xfer k).bytes.length ≤ 13) →
      (memset (run HZ addr qs d₀).model_name 0 14).length = 14 ∧
      (∀ command : Nat,
        (as6712_32x_psu_read_block env.xfer command
          (memset (run HZ addr qs d₀).model_name 0 14) ((13 : Nat) : Int)).data.length = 14 ∧
        (store (as6712_32x_psu_read_block env.xfer command
          (memset (run HZ addr qs d₀).model_name 0 14) ((13 : Nat) : Int)).data 13 [0]).length
            = 14 ∧
        (store (as6712_32x_psu_read_block env.xfer command
          (memset (run HZ addr qs d₀).model_name 0 14) ((13 : Nat) : Int)).data 0 [0]).length
            = 14) ∧
      (show_model_name HZ addr env (run HZ addr qs d₀)).data.model_name.length = 14 ∧
      ∃ name : List Nat,
        (show_model_name HZ addr env (run HZ addr qs d₀)).buf = name ++ [10] ∧
        name.length ≤ 13 ∧ 0 ∉ name) := by
  have hinv := buffer_ok_run HZ addr qs d₀ (buffer_ok_probe pe addr d₀ hprobe) hxfer
  have hstr : ∀ d : as6712_32x_psu_data, buffer_ok d → (c_str d.model_name).length ≤ 13 := by
    intro d hd
    have := c_str_length_lt d.model_name hd.2
    rw [hd.1] at this
    omega
  refine ⟨hinv.1, hinv.2, hstr _ hinv, ?_⟩
  intro env hx
  have hm := length_memset_14 _ hinv.1
  have hnext := buffer_ok_update_device HZ addr env _ hinv hx
  refine ⟨hm, ?_, hnext.1, ?_⟩
  · intro command
    have hb := length_read_block env.xfer command _ ((13 : Nat) : Int) hm hx
    refine ⟨hb, ?_, ?_⟩
    · rw [length_store _ _ _ (by rw [hb]; decide), hb]; rfl
    · rw [length_store _ _ _ (Nat.zero_le _), hb]; rfl
  · refine ⟨c_str (as6712_32x_psu_update_device HZ addr env (run HZ addr qs d₀)).data.model_name,
      rfl, hstr _ hnext, ?_⟩
    intro hmem
    have := List.mem_takeWhile_imp hmem
    simp at this

/-- C6 on the record probed at address 0x50 and read twice (`sample_queries`): the first read
stores the 13 bytes `B` and terminates them, the second blanks the name. -/
theorem model_name_terminated_witness :
    as6712_32x_psu_probe probe_ok 0x50 = .ok { kzalloc_psu_data with index := 1 } ∧
    (∀ q, q ∈ sample_queries → ∀ k, k < 5 → (q.env.xfer k).bytes.length ≤ 13) ∧
    (run 1000 0x50 sample_queries { kzalloc_psu_data with index := 1 }).model_name.length = 14 ∧
    0 ∈ (run 1000 0x50 sample_queries { kzalloc_psu_data with index := 1 }).model_name ∧
    (c_str (run 1000 0x50 sample_queries
      { kzalloc_psu_data with index := 1 }).model_name).length ≤ 13 :=
  ⟨rfl, by decide,
    (model_name_terminated 1000 0x50 probe_ok { kzalloc_psu_data with index := 1 } sample_queries
      rfl (by decide)).1,
    (model_name_terminated 1000 0x50 probe_ok { kzalloc_psu_data with index := 1 } sample_queries
      rfl (by decide)).2.1,
    (model_name_terminated 1000 0x50 probe_ok { kzalloc_psu_data with index := 1 } sample_queries
      rfl (by decide)).2.2.1⟩

end As6712Psu
